import Mathlib

set_option maxRecDepth 8000

namespace Srag

/-! Shallow embedding of the SRAG surveillance pipeline
(processor, validator, database tool, metrics tool).

Dates are modelled as day numbers (proleptic Gregorian, day 0 = 0001-01-01),
so `datetime` subtraction and comparison become integer arithmetic.
Floating-point numbers are modelled by exact rationals; `round(x, 2)` on a
Python float is modelled by exact rounding on rationals. -/

deriving instance DecidableEq for Except

/-- True when `y` is a Gregorian leap year. -/
def isLeap (y : ℕ) : Bool :=
  (y % 4 == 0 && y % 100 != 0) || y % 400 == 0

/-- Number of days in month `m` of year `y`. -/
def daysInMonth (y m : ℕ) : ℕ :=
  match m with
  | 1 => 31 | 3 => 31 | 5 => 31 | 7 => 31 | 8 => 31 | 10 => 31 | 12 => 31
  | 4 => 30 | 6 => 30 | 9 => 30 | 11 => 30
  | 2 => if isLeap y then 29 else 28
  | _ => 0

/-- Days of year `y` strictly before month `m`. -/
def daysBeforeMonth (y m : ℕ) : ℕ :=
  let feb := if isLeap y then 29 else 28
  match m with
  | 1 => 0 | 2 => 31 | 3 => 31 + feb | 4 => 62 + feb | 5 => 92 + feb
  | 6 => 123 + feb | 7 => 153 + feb | 8 => 184 + feb | 9 => 215 + feb
  | 10 => 245 + feb | 11 => 276 + feb | 12 => 306 + feb
  | _ => 0

/-- Day number of the civil date `y-m-d` (0001-01-01 is day 0). -/
def toDays (y m d : ℕ) : ℕ :=
  365 * (y - 1) + ((y - 1) / 4 - (y - 1) / 100 + (y - 1) / 400)
    + daysBeforeMonth y m + (d - 1)

/-- Day number of the civil date `y-m-d`, as an integer. -/
def toD (y m d : ℕ) : ℤ := toDays y m d

/-- Validity of a civil date triple. -/
def validDate (y m d : ℕ) : Bool :=
  1 ≤ y && 1 ≤ m && m ≤ 12 && 1 ≤ d && d ≤ daysInMonth y m

/-- Split a character list on a separator character. -/
def splitChars (sep : Char) : List Char → List Char → List (List Char)
  | [], acc => [acc.reverse]
  | c :: cs, acc =>
    if c = sep then acc.reverse :: splitChars sep cs []
    else splitChars sep cs (c :: acc)

/-- Digits-only reading of a natural number. -/
def charsToNatAux : List Char → ℕ → Option ℕ
  | [], acc => some acc
  | c :: cs, acc =>
    if c.isDigit then charsToNatAux cs (acc * 10 + (c.toNat - 48)) else none

/-- `none` unless the list is a nonempty run of digits. -/
def charsToNat? (cs : List Char) : Option ℕ :=
  if cs.isEmpty then none else charsToNatAux cs 0

/-- Parse a date string in year-month-day order (`%Y-%m-%d`); `none` on failure.
Models `pd.to_datetime(..., format="%Y-%m-%d", errors="coerce")` per value. -/
def parseYMD (s : String) : Option ℤ :=
  match splitChars '-' s.toList [] with
  | [ys, ms, ds] =>
    match charsToNat? ys, charsToNat? ms, charsToNat? ds with
    | some y, some m, some d => if validDate y m d then some (toD y m d) else none
    | _, _, _ => none
  | _ => none

/-- Parse a date string in day-month-year order (`%d/%m/%Y`); `none` on failure.
Models `pd.to_datetime(..., format="%d/%m/%Y", errors="coerce")` per value. -/
def parseDMY (s : String) : Option ℤ :=
  match splitChars '/' s.toList [] with
  | [ds, ms, ys] =>
    match charsToNat? ys, charsToNat? ms, charsToNat? ds with
    | some y, some m, some d => if validDate y m d then some (toD y m d) else none
    | _, _, _ => none
  | _ => none

/-! ### DatabaseTool._parse_all_dates (src/src/tools/database_tool.py:263-311)
The two static field groups and the per-field dispatch. -/

/-- The ISO (`%Y-%m-%d`) field group of `_parse_all_dates`. -/
def isoDateFields : List String :=
  ["DT_NOTIFIC", "DT_SIN_PRI", "DT_NASC", "DT_EVOLUCA",
   "DT_ENCERRA", "DT_DIGITA", "DT_INTERNA", "DT_COLETA",
   "DT_PCR", "DT_ENTUTI", "DT_SAIDUTI", "DT_RAIOX",
   "DT_ANTIVIR", "DT_TOMO", "DT_CO_SOR", "DT_RES",
   "DT_TRT_COV", "VG_DTRES", "DT_UT_DOSE", "DT_VAC_MAE"]

/-- The Brazilian (`%d/%m/%Y`) field group of `_parse_all_dates`:
the COVID vaccination dose-date columns. -/
def brazilianDateFields : List String :=
  ["DOSE_1_COV", "DOSE_2_COV", "DOSE_REF",
   "DOSE_2REF", "DOSE_ADIC", "DOS_RE_BI",
   "DT_DOSEUNI", "DT_1_DOSE", "DT_2_DOSE"]

/-- One cell after `_parse_all_dates`: either left as the raw value
(column not in either date group) or replaced by a parsed date (`none` = NaT). -/
inductive ParsedCell where
  | raw (v : Option String)
  | date (v : Option ℤ)
deriving DecidableEq

/-- `_parse_all_dates` on one cell of column `field`: fields in the ISO group
are parsed year-month-day, fields in the dose group day-month-year, all with
`errors="coerce"`; other columns are untouched. The dispatch depends only on
the field name, never on the cell value. -/
def parseDateField (field : String) (cell : Option String) : ParsedCell :=
  if field ∈ isoDateFields then .date (cell.bind parseYMD)
  else if field ∈ brazilianDateFields then .date (cell.bind parseDMY)
  else .raw cell

/-! ### SRAGDataProcessor age handling
`_convert_data_types` (processor.py:417-422) nulls ages outside [0,120];
`_create_derived_fields` (processor.py:456-462) bins with
`pd.cut(bins=[0,2,12,18,60,120], labels=[...], include_lowest=True)`,
whose intervals are right-closed: [0,2], (2,12], (12,18], (18,60], (60,120]. -/

/-- Age validation of `_convert_data_types`: ages outside [0,120] become missing. -/
def normalizeAge (a : Option ℚ) : Option ℚ :=
  match a with
  | none => none
  | some x => if x < 0 ∨ x > 120 then none else some x

/-- `FAIXA_ETARIA` from `pd.cut` with bins [0,2,12,18,60,120],
`include_lowest=True` and the default `right=True` (upper bound inclusive);
values outside every bin get NaN. -/
def faixaEtaria (a : Option ℚ) : Option String :=
  match a with
  | none => none
  | some x =>
    if 0 ≤ x ∧ x ≤ 2 then some "Lactente"
    else if 2 < x ∧ x ≤ 12 then some "Criança"
    else if 12 < x ∧ x ≤ 18 then some "Adolescente"
    else if 18 < x ∧ x ≤ 60 then some "Adulto"
    else if 60 < x ∧ x ≤ 120 then some "Idoso"
    else none

/-! ### SRAGDataProcessor._create_derived_fields, STATUS_VACINAL
(processor.py:524-546). The field starts at "Não informado", is set from the
yes/no code VACINA_COV, then refined by the dose columns parsed with
`pd.to_numeric(..., errors="coerce") == 1` (dose code values, not dates).
Later `data.loc[mask, col] = v` assignments overwrite earlier ones. -/

/-- Which of the columns read by the processor's STATUS_VACINAL block are
present in the dataset. -/
structure ProcVacCols where
  vacinaCov : Bool
  dose1 : Bool
  dose2 : Bool
  doseRef : Bool
deriving DecidableEq

/-- One record as seen by the processor's STATUS_VACINAL block:
the stripped string value of VACINA_COV and the numeric coercions of the
dose columns (`none` = NaN, i.e. missing or non-numeric). -/
structure ProcVacRow where
  vacinaCov : Option String
  dose1Num : Option ℚ
  dose2Num : Option ℚ
  doseRefNum : Option ℚ
deriving DecidableEq

/-- `STATUS_VACINAL` of `SRAGDataProcessor._create_derived_fields`. -/
def statusVacinal (cols : ProcVacCols) (r : ProcVacRow) : String :=
  let s0 := "Não informado"
  let s1 := if cols.vacinaCov ∧ r.vacinaCov = some "2" then "Não vacinado" else s0
  let s2 := if cols.vacinaCov ∧ r.vacinaCov = some "1" then "Vacinado" else s1
  let s3 := if cols.dose1 ∧ r.dose1Num = some 1 then "1ª dose" else s2
  let s4 := if cols.dose2 ∧ r.dose2Num = some 1 then "2ª dose" else s3
  if cols.doseRef ∧ r.doseRefNum = some 1 then "Dose reforço" else s4

/-! ### DatabaseTool._create_vaccination_status_field
(database_tool.py:463-510). STATUS_VACINAL_COVID from dose-date presence.
`data[[c1, c2, ...]]` with a column missing raises KeyError in pandas; the
caller `_create_derived_fields` catches it, so tiers after the raise are
skipped. -/

/-- Which of the five dose-date columns used by
`_create_vaccination_status_field` are present. -/
structure DoseCols where
  d1 : Bool
  d2 : Bool
  ref : Bool
  ref2 : Bool
  adic : Bool
deriving DecidableEq

/-- One record as seen by `_create_vaccination_status_field`: `notna` of each
dose-date cell (`false` when the column is absent) plus the VACINA_COV value,
which the function never reads. -/
structure DoseRow where
  d1 : Bool
  d2 : Bool
  ref : Bool
  ref2 : Bool
  adic : Bool
  vacinaCov : Option String
deriving DecidableEq

/-- `STATUS_VACINAL_COVID` of `DatabaseTool._create_vaccination_status_field`
for one record. `.error` models the pandas KeyError raised by
`data[[...]]` when the booster columns are only partially present
(lines 492 and 498); it aborts the remaining tiers for the whole dataset. -/
def statusVacinalCovid (cols : DoseCols) (r : DoseRow) : Except String String :=
  if ¬(cols.d1 ∨ cols.d2 ∨ cols.ref ∨ cols.ref2 ∨ cols.adic) then
    .ok "Não informado"
  else
    let hasAny := (cols.d1 && r.d1) || (cols.d2 && r.d2) || (cols.ref && r.ref)
      || (cols.ref2 && r.ref2) || (cols.adic && r.adic)
    let s1 := if hasAny then "Não informado" else "Não vacinado"
    let s2 :=
      if cols.d1 then
        if cols.d2 then (if r.d1 && !r.d2 then "1ª dose apenas" else s1)
        else (if r.d1 then "1ª dose apenas" else s1)
      else s1
    if cols.d2 ∧ (cols.ref ∨ cols.ref2 ∨ cols.adic)
        ∧ ¬(cols.ref ∧ cols.ref2 ∧ cols.adic) then
      .error "KeyError: DOSE_REF, DOSE_2REF, DOSE_ADIC"
    else
      let noBooster :=
        if cols.ref ∨ cols.ref2 ∨ cols.adic then !(r.ref || r.ref2 || r.adic)
        else true
      let s3 := if cols.d2 then
          (if r.d2 && noBooster then "Esquema completo (2 doses)" else s2)
        else s2
      if cols.ref ∧ (cols.ref2 ∨ cols.adic) ∧ ¬(cols.ref2 ∧ cols.adic) then
        .error "KeyError: DOSE_2REF, DOSE_ADIC"
      else
        let noSecond :=
          if cols.ref2 ∨ cols.adic then !(r.ref2 || r.adic) else true
        let s4 := if cols.ref then
            (if r.ref && noSecond then "Com dose de reforço" else s3)
          else s3
        let hasExtra :=
          if cols.ref2 ∧ cols.adic then r.ref2 || r.adic
          else if cols.ref2 then r.ref2
          else r.adic
        let s5 := if cols.ref2 ∨ cols.adic then
            (if hasExtra then "Com reforços adicionais" else s4)
          else s4
        .ok s5

/-- All five dose-date columns present. -/
def allDoseCols : DoseCols := ⟨true, true, true, true, true⟩

/-- No dose-date column present. -/
def noDoseCols : DoseCols := ⟨false, false, false, false, false⟩

/-- The claim's precedence rule, written from the spec's words: tiers
evaluated low to high, the highest satisfied tier winning. -/
def claimVacTier (r : DoseRow) : String :=
  if r.ref2 || r.adic then "Com reforços adicionais"
  else if r.ref then "Com dose de reforço"
  else if r.d2 then "Esquema completo (2 doses)"
  else if r.d1 then "1ª dose apenas"
  else "Não vacinado"

/-! ### MetricsCalculatorTool (src/src/tools/metrics_tool.py)
The dataset as the metrics see it: a set of present columns plus rows.
A DT_NOTIFIC cell can still be a raw string (pandas object column), an
already-parsed date, or missing. -/

/-- One DT_NOTIFIC cell: raw string, parsed date, or missing (NaN/NaT). -/
inductive DtCell where
  | str (s : String)
  | date (d : ℤ)
  | na
deriving DecidableEq

/-- Columns of the metrics dataset that the three modelled metrics read. -/
structure ColumnSet where
  dtNotific : Bool
  evolucao : Bool
  teveObito : Bool
  dose1 : Bool
  dose2 : Bool
  doseRef : Bool
  dose2Ref : Bool
  doseAdic : Bool
  dosReBi : Bool
deriving DecidableEq

/-- One row of the metrics dataset. Dose cells are parsed dates
(`none` = NaT); TEVE_OBITO is the derived 0/1 integer column. -/
structure SragRow where
  dtNotific : DtCell
  evolucao : Option String
  teveObito : ℕ
  dose1 : Option ℤ
  dose2 : Option ℤ
  doseRef : Option ℤ
  dose2Ref : Option ℤ
  doseAdic : Option ℤ
  dosReBi : Option ℤ
deriving DecidableEq

/-- The metrics dataset: present columns plus rows. -/
structure SragData where
  cols : ColumnSet
  rows : List SragRow
deriving DecidableEq

/-- `pd.to_datetime(col, errors="coerce")` on one DT_NOTIFIC cell
(strings parsed as ISO dates, failures and NaN becoming NaT). -/
def coerceDate : DtCell → Option ℤ
  | .date d => some d
  | .str s => parseYMD s
  | .na => none

/-- `pd.to_datetime(col)` with the default `errors="raise"` on one cell. -/
def toDatetime : DtCell → Except String DtCell
  | .date d => .ok (.date d)
  | .str s =>
    match parseYMD s with
    | some d => .ok (.date d)
    | none => .error "ParserError: unparsable DT_NOTIFIC value"
  | .na => .ok .na

/-- The in-place column assignment
`data["DT_NOTIFIC"] = pd.to_datetime(data["DT_NOTIFIC"])` shared by the
metric functions (metrics_tool.py lines 117, 213, 319, 441): every row's
DT_NOTIFIC cell is re-parsed; all other columns are untouched. -/
def parseRows : List SragRow → Except String (List SragRow)
  | [] => .ok []
  | r :: rs => do
    let c ← toDatetime r.dtNotific
    let rest ← parseRows rs
    .ok ({ r with dtNotific := c } :: rest)

/-- See `parseRows`: the whole-column variant returning the updated dataset. -/
def parseDtColumn (data : SragData) : Except String SragData :=
  match parseRows data.rows with
  | .error e => .error e
  | .ok rows => .ok { data with rows := rows }

/-- `MetricsCalculatorTool._detect_and_adjust_reference_date`
(metrics_tool.py:38-68). `now` is `datetime.now()`. Re-anchors to the
dataset's maximum DT_NOTIFIC only when that maximum is more than 1095 days
before `now`; otherwise returns the caller's reference date unchanged. -/
def detectAndAdjustReferenceDate (now : ℤ) (data : SragData) (ref : ℤ) : ℤ :=
  if data.rows.isEmpty || !data.cols.dtNotific then ref
  else
    let dates := data.rows.filterMap fun r => coerceDate r.dtNotific
    match dates.max? with
    | none => ref
    | some m => if m < now - 1095 then m else ref

/-- Rows whose (parsed) DT_NOTIFIC lies in the closed window [lo, hi];
NaT rows never match, mirroring pandas comparison semantics. -/
def inWindow (rows : List SragRow) (lo hi : ℤ) : List SragRow :=
  rows.filter fun r =>
    match r.dtNotific with
    | .date d => decide (lo ≤ d ∧ d ≤ hi)
    | _ => false

/-- Number of rows with DT_NOTIFIC in the closed window [lo, hi]. -/
def countWindow (rows : List SragRow) (lo hi : ℤ) : ℕ :=
  (inWindow rows lo hi).length

/-- Result of `calculate_case_increase_rate`. The rate is kept as the exact
rational (`round(rate, 2)` on the float is not modelled); interpretation
strings that interpolate the percentage are kept without the number. -/
structure CaseIncreaseResult where
  rate : ℚ
  interpretation : String
  currentCases : ℕ
  previousCases : ℕ
  absoluteChange : ℤ
  currentStart : ℤ
  currentEnd : ℤ
  previousStart : ℤ
  previousEnd : ℤ
  hasPeriodAnalysis : Bool
deriving DecidableEq

/-- `MetricsCalculatorTool.calculate_case_increase_rate`
(metrics_tool.py:70-186). Returns the result together with the dataset as
left behind by the in-place DT_NOTIFIC assignment. The empty/no-column
branch (line 90) returns before that assignment, so there the dataset is
returned unchanged (its window fields, absent from the Python dict, are 0
with `hasPeriodAnalysis := false`). -/
def calcCaseIncreaseRate (now : ℤ) (data : SragData) (ref : ℤ)
    (periodDays : ℤ) : Except String (CaseIncreaseResult × SragData) :=
  if data.rows.isEmpty || !data.cols.dtNotific then
    .ok ({ rate := 0,
           interpretation := "Sem dados disponíveis para o período analisado",
           currentCases := 0, previousCases := 0, absoluteChange := 0,
           currentStart := 0, currentEnd := 0, previousStart := 0,
           previousEnd := 0, hasPeriodAnalysis := false }, data)
  else
    let refAdj := detectAndAdjustReferenceDate now data ref
    let currentEnd := refAdj
    let currentStart := currentEnd - periodDays
    let previousEnd := currentStart
    let previousStart := previousEnd - periodDays
    match parseDtColumn data with
    | .error e => .error e
    | .ok dataP =>
      let currentCases := countWindow dataP.rows currentStart currentEnd
      let previousCases := countWindow dataP.rows previousStart previousEnd
      let rateInterp : ℚ × String :=
        if previousCases = 0 then
          if currentCases = 0 then (0, "Sem casos em ambos os períodos")
          else (100, "Novos casos identificados")
        else
          let r := (((currentCases : ℚ) - previousCases) / previousCases) * 100
          if r > 0 then (r, "Aumento em relação ao período anterior")
          else if r < 0 then (r, "Diminuição em relação ao período anterior")
          else (r, "Número de casos estável")
      .ok ({ rate := rateInterp.1, interpretation := rateInterp.2,
             currentCases := currentCases, previousCases := previousCases,
             absoluteChange := (currentCases : ℤ) - (previousCases : ℤ),
             currentStart := currentStart, currentEnd := currentEnd,
             previousStart := previousStart, previousEnd := previousEnd,
             hasPeriodAnalysis := true }, dataP)

/-- Result of `calculate_mortality_rate` (rate kept exact; interpolated
interpretation strings kept without the number). -/
structure MortalityResult where
  rate : ℚ
  interpretation : String
  totalCases : ℕ
  deaths : ℕ
  periodStart : ℤ
  periodEnd : ℤ
  hasPeriodAnalysis : Bool
deriving DecidableEq

/-- `MetricsCalculatorTool.calculate_mortality_rate`
(metrics_tool.py:188-292). There is no emptiness guard before the
DT_NOTIFIC access at line 213: a dataset without that column raises
KeyError, which the function logs and re-raises. -/
def calcMortalityRate (now : ℤ) (data : SragData) (ref : ℤ)
    (periodDays : ℤ) : Except String (MortalityResult × SragData) :=
  let refAdj := detectAndAdjustReferenceDate now data ref
  let startDate := refAdj - periodDays
  if !data.cols.dtNotific then .error "KeyError: DT_NOTIFIC"
  else
    match parseDtColumn data with
    | .error e => .error e
    | .ok dataP =>
      let periodRows := inWindow dataP.rows startDate refAdj
      if periodRows.isEmpty then
        .ok ({ rate := 0,
               interpretation := "Sem dados para o período analisado",
               totalCases := 0, deaths := 0,
               periodStart := startDate, periodEnd := refAdj,
               hasPeriodAnalysis := false }, dataP)
      else
        let totalCases := periodRows.length
        let deaths :=
          if data.cols.teveObito then (periodRows.map (·.teveObito)).sum
          else if data.cols.evolucao then
            periodRows.countP fun r =>
              r.evolucao == some "2" || r.evolucao == some "3"
          else 0
        let rate : ℚ :=
          if totalCases > 0 then ((deaths : ℚ) / totalCases) * 100 else 0
        let interp :=
          if rate = 0 then "Nenhum óbito registrado no período"
          else if rate < 5 then "Taxa de mortalidade baixa"
          else if rate < 15 then "Taxa de mortalidade moderada"
          else "Taxa de mortalidade alta"
        .ok ({ rate := rate, interpretation := interp,
               totalCases := totalCases, deaths := deaths,
               periodStart := startDate, periodEnd := refAdj,
               hasPeriodAnalysis := true }, dataP)

/-- Result of `calculate_vaccination_rate` (rate kept exact; breakdown
fields mirror the `vaccination_breakdown` dict). -/
structure VacResult where
  rate : ℚ
  interpretation : String
  totalCases : ℕ
  vaccinatedCases : ℕ
  unvaccinatedCases : ℕ
  bd1 : ℕ
  bd2 : ℕ
  bdBooster : ℕ
  bd2Booster : ℕ
  bdAdditional : ℕ
  periodStart : ℤ
  periodEnd : ℤ
  hasPeriodAnalysis : Bool
deriving DecidableEq

/-- `MetricsCalculatorTool._empty_vaccination_result`
(metrics_tool.py:563-583). -/
def emptyVacResult (refAdj periodDays : ℤ) : VacResult :=
  { rate := 0,
    interpretation := "Dados de vacinação não disponíveis para o período",
    totalCases := 0, vaccinatedCases := 0, unvaccinatedCases := 0,
    bd1 := 0, bd2 := 0, bdBooster := 0, bd2Booster := 0, bdAdditional := 0,
    periodStart := refAdj - periodDays, periodEnd := refAdj,
    hasPeriodAnalysis := false }

/-- `MetricsCalculatorTool.calculate_vaccination_rate`
(metrics_tool.py:400-561). Like the mortality metric it accesses
DT_NOTIFIC with no emptiness guard (line 441). Dose cells are modelled as
already parsed dates, so the per-column dtype re-parse fallback on the
`period_data` copy (lines 468-475) is the identity here. -/
def calcVaccinationRate (now : ℤ) (data : SragData) (ref : ℤ)
    (periodDays : ℤ) : Except String (VacResult × SragData) :=
  let refAdj := detectAndAdjustReferenceDate now data ref
  let startDate := refAdj - periodDays
  if !data.cols.dtNotific then .error "KeyError: DT_NOTIFIC"
  else
    match parseDtColumn data with
    | .error e => .error e
    | .ok dataP =>
      let periodRows := inWindow dataP.rows startDate refAdj
      if periodRows.isEmpty then .ok (emptyVacResult refAdj periodDays, dataP)
      else
        let anyDoseCol := data.cols.dose1 || data.cols.dose2
          || data.cols.doseRef || data.cols.dose2Ref || data.cols.doseAdic
          || data.cols.dosReBi
        if !anyDoseCol then .ok (emptyVacResult refAdj periodDays, dataP)
        else
          let totalCases := periodRows.length
          let bd1 := if data.cols.dose1 then
              periodRows.countP (fun r => r.dose1.isSome) else 0
          let bd2 := if data.cols.dose2 then
              periodRows.countP (fun r => r.dose2.isSome) else 0
          let bdBooster := if data.cols.doseRef then
              periodRows.countP (fun r => r.doseRef.isSome) else 0
          let bd2Booster := if data.cols.dose2Ref then
              periodRows.countP (fun r => r.dose2Ref.isSome) else 0
          let bdAdditional := if data.cols.doseAdic then
              periodRows.countP (fun r => r.doseAdic.isSome) else 0
          let vaccinated := periodRows.countP fun r =>
            (data.cols.dose1 && r.dose1.isSome)
            || (data.cols.dose2 && r.dose2.isSome)
            || (data.cols.doseRef && r.doseRef.isSome)
            || (data.cols.dose2Ref && r.dose2Ref.isSome)
            || (data.cols.doseAdic && r.doseAdic.isSome)
            || (data.cols.dosReBi && r.dosReBi.isSome)
          let rate : ℚ :=
            if totalCases > 0 then ((vaccinated : ℚ) / totalCases) * 100 else 0
          let interp :=
            if rate = 0 then "Nenhum caso vacinado identificado no período"
            else if rate < 30 then "Taxa de vacinação baixa"
            else if rate < 70 then "Taxa de vacinação moderada"
            else "Taxa de vacinação alta"
          .ok ({ rate := rate, interpretation := interp,
                 totalCases := totalCases, vaccinatedCases := vaccinated,
                 unvaccinatedCases := totalCases - vaccinated,
                 bd1 := bd1, bd2 := bd2, bdBooster := bdBooster,
                 bd2Booster := bd2Booster, bdAdditional := bdAdditional,
                 periodStart := startDate, periodEnd := refAdj,
                 hasPeriodAnalysis := true }, dataP)

/-- A row with its DT_NOTIFIC cell blanked, for stating that the metrics
change nothing but that column. -/
def eraseDt (r : SragRow) : SragRow := { r with dtNotific := .na }

/-- True when every DT_NOTIFIC cell is already a parsed date or NaT
(no raw strings left). -/
def dtAlreadyParsed (data : SragData) : Bool :=
  data.rows.all fun r =>
    match r.dtNotific with
    | .str _ => false
    | _ => true

/-! ### SRAGDataValidator (src/src/data/validator.py) -/

/-- The aggregated validation result as `_calculate_quality_score` reads it:
error and warning lists, the per-field completeness dict flattened to its
`null_percentage` values (`[]` when the key is absent or empty), whether a
`duplicate_analysis` key is present, the key-field duplicate count and the
total record count. -/
structure ValidationAgg where
  errors : List String
  warnings : List String
  completeness : List ℚ
  hasDupAnalysis : Bool
  keyFieldDuplicates : ℕ
  totalRecords : ℕ
deriving DecidableEq

/-- `round(x, 2)` modelled exactly on rationals. -/
def round2 (q : ℚ) : ℚ := ((round (q * 100) : ℤ) : ℚ) / 100

/-- `SRAGDataValidator._calculate_quality_score` (validator.py:619-659).
With a `duplicate_analysis` present and `total_records = 0`, the integer
division at line 653 raises ZeroDivisionError, which the handler turns
into 0.0. -/
def qualityScore (vr : ValidationAgg) : ℚ :=
  if vr.hasDupAnalysis ∧ vr.totalRecords = 0 then 0
  else
    let s1 : ℚ := 100 - 10 * vr.errors.length - 2 * vr.warnings.length
    let s2 :=
      if vr.completeness ≠ [] then
        let avg := ((vr.completeness.map fun p => (100 : ℚ) - p).sum)
          / vr.completeness.length
        s1 * (avg / 100)
      else s1
    let s3 :=
      if vr.hasDupAnalysis then
        s2 - ((vr.keyFieldDuplicates : ℚ) / vr.totalRecords) * 20
      else s2
    round2 (max 0 (min 100 s3))

/-- The quality-score recipe as the claim words it: start at 100, subtract
10 per error, subtract 2 per warning, multiply by average per-field
completeness over 100, subtract up to 20 points scaled by the key-duplicate
ratio, clamp to [0, 100]. -/
def claimQualityScore (vr : ValidationAgg) : ℚ :=
  let afterErrors : ℚ := 100 - 10 * vr.errors.length
  let afterWarnings := afterErrors - 2 * vr.warnings.length
  let avgCompleteness := ((vr.completeness.map fun p => (100 : ℚ) - p).sum)
    / vr.completeness.length
  let afterCompleteness := afterWarnings * (avgCompleteness / 100)
  let afterDup := afterCompleteness
    - 20 * ((vr.keyFieldDuplicates : ℚ) / vr.totalRecords)
  max 0 (min 100 afterDup)

/-- Per-column input of `_validate_completeness`: column name and its null
count. -/
structure ColStat where
  name : String
  nullCount : ℕ
deriving DecidableEq

/-- The dict built by `_validate_completeness`, with one `Option` per key so
that an absent key is distinguishable from an empty value. -/
structure CompletenessOut where
  completeness : Option (List (String × ℚ))
  errors : Option (List String)
  warnings : Option (List String)
  statistics : Option (List (String × ℚ))
deriving DecidableEq

/-- `validation_rules["required_fields"]` (validator.py:47). -/
def requiredFields : List String := ["DT_NOTIFIC", "NU_NOTIFIC"]

/-- Null percentage of a column. With zero records NumPy yields NaN with a
warning rather than raising; the value is modelled as 0 since the branch
that computes it is discarded by the KeyError below either way. -/
def nullPct (nRecords : ℕ) (c : ColStat) : ℚ :=
  if nRecords = 0 then 0 else (c.nullCount : ℚ) / nRecords * 100

/-- The message produced by the handler at validator.py:223-225 for the
KeyError at line 219 (Python renders it with the key quoted). -/
def completenessKeyErrorMsg : String :=
  "Erro na validação de completude: KeyError statistics"

/-- `SRAGDataValidator._validate_completeness` (validator.py:161-225).
The local dict is initialised as `{"completeness": {}}` with no
`statistics` key, so the final assignment
`completeness_result["statistics"]["field_completeness"] = ...` (line 219)
raises KeyError and the handler returns a dict holding only one error
string; everything computed before is discarded. -/
def validateCompleteness (colStats : List ColStat) (nRecords : ℕ) :
    CompletenessOut :=
  let reqEntries := requiredFields.filterMap fun f =>
    (colStats.find? fun c => c.name == f).map fun c => (f, nullPct nRecords c)
  let reqErrors := requiredFields.filterMap fun f =>
    match colStats.find? fun c => c.name == f with
    | some c =>
      if nullPct nRecords c > 0 then
        some ("Campo obrigatório " ++ f ++ " tem valores nulos")
      else none
    | none => some ("Campo obrigatório " ++ f ++ " não encontrado nos dados")
  let warns := colStats.filterMap fun c =>
    if nullPct nRecords c > 50 then
      some ("Campo " ++ c.name ++ " tem alta taxa de nulos")
    else none
  let beforeAssign : CompletenessOut :=
    { completeness := some reqEntries,
      errors := if reqErrors = [] then none else some reqErrors,
      warnings := if warns = [] then none else some warns,
      statistics := none }
  match beforeAssign.statistics with
  | some _ => beforeAssign
  | none =>
    { completeness := none, errors := some [completenessKeyErrorMsg],
      warnings := none, statistics := none }

/-- The constant value `_validate_completeness` in fact always returns. -/
def completenessErrorOut : CompletenessOut :=
  { completeness := none, errors := some [completenessKeyErrorMsg],
    warnings := none, statistics := none }

/-! ### Accessors and concrete datasets used by the theorems below. -/

/-- Current/previous case counts of a case-trend run, when it succeeded. -/
def caseCounts (e : Except String (CaseIncreaseResult × SragData)) :
    Option (ℕ × ℕ) :=
  match e with
  | .ok (r, _) => some (r.currentCases, r.previousCases)
  | .error _ => none

/-- Current-window end of a case-trend run, when it succeeded. -/
def caseWindowEnd (e : Except String (CaseIncreaseResult × SragData)) :
    Option ℤ :=
  match e with
  | .ok (r, _) => some r.currentEnd
  | .error _ => none

/-- The dataset a case-trend run leaves behind, when it succeeded. -/
def caseDataAfter (e : Except String (CaseIncreaseResult × SragData)) :
    Option SragData :=
  match e with
  | .ok (_, d) => some d
  | .error _ => none

/-- A row with a given DT_NOTIFIC cell and everything else missing/zero. -/
def mkRow (c : DtCell) : SragRow :=
  { dtNotific := c, evolucao := none, teveObito := 0,
    dose1 := none, dose2 := none, doseRef := none,
    dose2Ref := none, doseAdic := none, dosReBi := none }

/-- Only the DT_NOTIFIC column present. -/
def onlyDtCols : ColumnSet :=
  ⟨true, false, false, false, false, false, false, false, false⟩

/-- No columns at all: `pd.DataFrame()`. -/
def noCols : ColumnSet :=
  ⟨false, false, false, false, false, false, false, false, false⟩

/-- The entirely empty dataset `pd.DataFrame()`: no columns, no rows. -/
def emptyData : SragData := ⟨noCols, []⟩

/-- Dataset whose maximum notification date is 2024-06-01. -/
def c2Data : SragData := ⟨onlyDtCols, [mkRow (.date (toD 2024 6 1))]⟩

/-- Dataset with a single notification dated 2024-03-02. -/
def c5Data : SragData := ⟨onlyDtCols, [mkRow (.date (toD 2024 3 2))]⟩

/-- Dataset with a single notification dated 2026-06-01. -/
def c6Data : SragData := ⟨onlyDtCols, [mkRow (.date (toD 2026 6 1))]⟩

/-- Dataset with a single notification dated 2024-04-01 (current window
only, previous window empty). -/
def c5NewData : SragData := ⟨onlyDtCols, [mkRow (.date (toD 2024 4 1))]⟩

/-- The case-trend result on `c5NewData` with reference 2024-04-01, N = 30:
previous count 0, current count 1, rate 100 ("new cases"). -/
def c5NewRes : CaseIncreaseResult :=
  { rate := 100, interpretation := "Novos casos identificados",
    currentCases := 1, previousCases := 0, absoluteChange := 1,
    currentStart := toD 2024 3 2, currentEnd := toD 2024 4 1,
    previousStart := toD 2024 2 1, previousEnd := toD 2024 3 2,
    hasPeriodAnalysis := true }

/-- Dataset whose DT_NOTIFIC column still holds a raw string. -/
def c9Before : SragData := ⟨onlyDtCols, [mkRow (.str "2024-01-05")]⟩

/-- `c9Before` after the in-place DT_NOTIFIC re-parse. -/
def c9After : SragData := ⟨onlyDtCols, [mkRow (.date (toD 2024 1 5))]⟩

/-- Dataset (for the processor's STATUS_VACINAL) with the VACINA_COV column
but no dose column at all. -/
def c1Cols : ProcVacCols := ⟨true, false, false, false⟩

/-- A record reporting VACINA_COV = 1 (vaccinated per the yes/no code). -/
def c1RowYes : ProcVacRow := ⟨some "1", none, none, none⟩

/-- The same record with VACINA_COV missing. -/
def c1RowMissing : ProcVacRow := ⟨none, none, none, none⟩

/-! ## Theorems -/

/-- Claim C1, counterexample: with no dose-date column in the dataset, the
processor's derived vaccination status is not "unknown" for every record —
it is driven by the yes/no code VACINA_COV, whose value changes the result. -/
theorem c1_counterexample :
    statusVacinal c1Cols c1RowYes = "Vacinado" ∧
    statusVacinal c1Cols c1RowMissing = "Não informado" ∧
    ("Vacinado" : String) ≠ "Não informado" := by
  refine ⟨rfl, rfl, by decide⟩

/-- Claim C2, counterexample: with the current date 2026-10-12, requested
reference date 2099-12-31 and dataset maximum 2024-06-01 (more than three
years before the reference date), the engine does NOT re-anchor to
2024-06-01 — the 1095-day test compares the dataset maximum against the
current date, not against the reference date. -/
theorem c2_counterexample :
    detectAndAdjustReferenceDate (toD 2026 10 12) c2Data (toD 2099 12 31) =
      toD 2099 12 31 ∧
    toD 2099 12 31 ≠ toD 2024 6 1 := by
  refine ⟨rfl, by decide⟩

/-- Claim C3, failing input: on the entirely empty dataset `pd.DataFrame()`
the mortality and vaccination metrics access the absent DT_NOTIFIC column
with no emptiness guard and raise (KeyError), instead of returning the
rate-0 no-data result; only the case-trend metric has the guard and returns
rate 0.0. The repository's own test (tests/test_metrics_tool.py:98-101)
expects rate 0.0 from the mortality metric here. -/
theorem c3_empty_dataset_mortality_raises :
    calcMortalityRate (toD 2026 10 12) emptyData (toD 2024 1 1) 90 =
      .error "KeyError: DT_NOTIFIC" ∧
    calcVaccinationRate (toD 2026 10 12) emptyData (toD 2024 1 1) 90 =
      .error "KeyError: DT_NOTIFIC" ∧
    calcCaseIncreaseRate (toD 2026 10 12) emptyData (toD 2024 1 1) 30 =
      .ok ({ rate := 0,
             interpretation := "Sem dados disponíveis para o período analisado",
             currentCases := 0, previousCases := 0, absoluteChange := 0,
             currentStart := 0, currentEnd := 0, previousStart := 0,
             previousEnd := 0, hasPeriodAnalysis := false }, emptyData) := by
  refine ⟨rfl, rfl, rfl⟩

/-- Claim C4, counterexample: the bins are upper-bound inclusive, not
lower-bound inclusive — age 60 is labeled "Adulto" (adult), not "Idoso"
(elderly), and age 2 is "Lactente" (infant), not "Criança" (child). -/
theorem c4_counterexample :
    faixaEtaria (normalizeAge (some 60)) = some "Adulto" ∧
    faixaEtaria (normalizeAge (some 2)) = some "Lactente" ∧
    some "Adulto" ≠ some ("Idoso" : String) ∧
    some "Lactente" ≠ some ("Criança" : String) := by
  refine ⟨by norm_num [normalizeAge, faixaEtaria],
          by norm_num [normalizeAge, faixaEtaria], by decide, by decide⟩

/-- Claim C5, counterexample: a record dated exactly ref − N (2024-03-02,
with ref 2024-04-01 and N = 30) is counted in BOTH periods — both windows
are closed, so current_cases = 1 rather than the 0 the claim requires. -/
theorem c5_counterexample :
    caseCounts (calcCaseIncreaseRate (toD 2024 4 1) c5Data (toD 2024 4 1) 30) =
      some (1, 1) ∧
    (1 : ℕ) ≠ 0 := by
  refine ⟨rfl, by decide⟩

/-- Claim C6, counterexample: a future reference date is not clamped to
today — with the current date 2026-10-12, recent data (max 2026-06-01), and
reference date 2099-12-31, the case-trend window end is 2099-12-31, a date
beyond today. -/
theorem c6_counterexample :
    caseWindowEnd
        (calcCaseIncreaseRate (toD 2026 10 12) c6Data (toD 2099 12 31) 30) =
      some (toD 2099 12 31) ∧
    toD 2026 10 12 < toD 2099 12 31 := by
  refine ⟨rfl, by decide⟩

/-- Claim C9, counterexample: the case-trend metric reassigns the caller's
DT_NOTIFIC column in place — a dataset holding the raw string "2024-01-05"
comes back with the column replaced by parsed dates, i.e. changed. -/
theorem c9_counterexample :
    caseDataAfter
        (calcCaseIncreaseRate (toD 2024 4 1) c9Before (toD 2024 4 1) 30) =
      some c9After ∧
    c9After ≠ c9Before := by
  refine ⟨by decide, by decide⟩

/-- Claim C4 (amended): over the normalization-then-binning pipeline, the
fixed bins are upper-bound inclusive — [0,2] infant, (2,12] child, (12,18]
adolescent, (18,60] adult, (60,120] elderly — and any age above 120 is
coerced to missing during normalization. -/
theorem c4_age_brackets_upper_inclusive (x : ℚ) :
    (0 ≤ x → x ≤ 2 → faixaEtaria (normalizeAge (some x)) = some "Lactente") ∧
    (2 < x → x ≤ 12 → faixaEtaria (normalizeAge (some x)) = some "Criança") ∧
    (12 < x → x ≤ 18 →
      faixaEtaria (normalizeAge (some x)) = some "Adolescente") ∧
    (18 < x → x ≤ 60 → faixaEtaria (normalizeAge (some x)) = some "Adulto") ∧
    (60 < x → x ≤ 120 → faixaEtaria (normalizeAge (some x)) = some "Idoso") ∧
    (120 < x → normalizeAge (some x) = none ∧
      faixaEtaria (normalizeAge (some x)) = none) := by
  refine ⟨fun h1 h2 => ?_, fun h1 h2 => ?_, fun h1 h2 => ?_, fun h1 h2 => ?_,
    fun h1 h2 => ?_, fun h1 => ?_⟩
  · simp only [normalizeAge]
    rw [if_neg (by rintro (h | h) <;> linarith)]
    simp only [faixaEtaria]
    rw [if_pos ⟨h1, h2⟩]
  · simp only [normalizeAge]
    rw [if_neg (by rintro (h | h) <;> linarith)]
    simp only [faixaEtaria]
    rw [if_neg (by rintro ⟨-, h⟩; linarith), if_pos ⟨h1, h2⟩]
  · simp only [normalizeAge]
    rw [if_neg (by rintro (h | h) <;> linarith)]
    simp only [faixaEtaria]
    rw [if_neg (by rintro ⟨-, h⟩; linarith),
      if_neg (by rintro ⟨-, h⟩; linarith), if_pos ⟨h1, h2⟩]
  · simp only [normalizeAge]
    rw [if_neg (by rintro (h | h) <;> linarith)]
    simp only [faixaEtaria]
    rw [if_neg (by rintro ⟨-, h⟩; linarith),
      if_neg (by rintro ⟨-, h⟩; linarith),
      if_neg (by rintro ⟨-, h⟩; linarith), if_pos ⟨h1, h2⟩]
  · simp only [normalizeAge]
    rw [if_neg (by rintro (h | h) <;> linarith)]
    simp only [faixaEtaria]
    rw [if_neg (by rintro ⟨-, h⟩; linarith),
      if_neg (by rintro ⟨-, h⟩; linarith),
      if_neg (by rintro ⟨-, h⟩; linarith),
      if_neg (by rintro ⟨-, h⟩; linarith), if_pos ⟨h1, h2⟩]
  · have hn : normalizeAge (some x) = none := by
      simp only [normalizeAge]
      rw [if_pos (Or.inr h1)]
    exact ⟨hn, by rw [hn]; rfl⟩

/-- Claim C4 witness: the bracket theorem applied at ages 1 and 121. -/
theorem c4_witness :
    faixaEtaria (normalizeAge (some 1)) = some "Lactente" ∧
    normalizeAge (some 121) = none := by
  exact ⟨(c4_age_brackets_upper_inclusive 1).1 (by norm_num) (by norm_num),
    ((c4_age_brackets_upper_inclusive 121).2.2.2.2.2 (by norm_num)).1⟩

/-- Claim C7: date parsing is dispatched by field identity from the two
static tables — every field in the primary (ISO) group is parsed
year-month-day, every vaccination dose-date field day-month-year, and an
unparsable value in either group becomes missing (NaT) rather than
aborting. The chosen format depends only on the field name, never on the
value. -/
theorem c7_date_dispatch (field : String) (cell : Option String) :
    (field ∈ isoDateFields →
      parseDateField field cell = .date (cell.bind parseYMD)) ∧
    (field ∈ brazilianDateFields →
      parseDateField field cell = .date (cell.bind parseDMY)) ∧
    (∀ s, field ∈ isoDateFields → parseYMD s = none →
      parseDateField field (some s) = .date none) ∧
    (∀ s, field ∈ brazilianDateFields → parseDMY s = none →
      parseDateField field (some s) = .date none) := by
  refine ⟨fun hiso => ?_, fun hbr => ?_, fun s hiso hn => ?_,
    fun s hbr hn => ?_⟩
  · simp [parseDateField, hiso]
  · have hniso : field ∉ isoDateFields := by fin_cases hbr <;> decide
    simp [parseDateField, hbr, hniso]
  · simp [parseDateField, hiso, hn]
  · have hniso : field ∉ isoDateFields := by fin_cases hbr <;> decide
    simp [parseDateField, hbr, hniso, hn]

/-- Claim C7 witness: the dispatch theorem applied to the dose-date field
DOSE_1_COV with the day-first value "18/05/2021" (day 18 > 12, so the two
calendars disagree on it) and to DT_NOTIFIC with an unparsable value. -/
theorem c7_witness :
    parseDateField "DOSE_1_COV" (some "18/05/2021") =
      .date ((some "18/05/2021").bind parseDMY) ∧
    (some "18/05/2021").bind parseDMY = some (toD 2021 5 18) ∧
    parseYMD "18/05/2021" ≠ parseDMY "18/05/2021" ∧
    parseDateField "DT_NOTIFIC" (some "not a date") = .date none := by
  refine ⟨(c7_date_dispatch "DOSE_1_COV" (some "18/05/2021")).2.1 (by decide),
    by decide, by decide,
    (c7_date_dispatch "DT_NOTIFIC" (some "not a date")).2.2.1 "not a date"
      (by decide) (by decide)⟩

/-- Claim C1 (amended): the dose-date rule holds for the database tool's
STATUS_VACINAL_COVID field: with all five dose-date columns present the
status equals the precedence rule over dose-date presence (a second dose
with no booster yields "complete scheme" even without a first-dose date),
with no dose-date column at all every record is "Não informado" (unknown),
and the VACINA_COV yes/no code never influences this field. The processor's
separate STATUS_VACINAL field does not satisfy the claim. -/
theorem c1_vaccination_status_dose_dates (r : DoseRow) :
    statusVacinalCovid allDoseCols r = .ok (claimVacTier r) ∧
    statusVacinalCovid noDoseCols r = .ok "Não informado" ∧
    (∀ v, statusVacinalCovid allDoseCols { r with vacinaCov := v } =
      statusVacinalCovid allDoseCols r) := by
  obtain ⟨d1, d2, rf, r2, ad, v⟩ := r
  refine ⟨?_, rfl, fun v2 => rfl⟩
  cases d1 <;> cases d2 <;> cases rf <;> cases r2 <;> cases ad <;> rfl

/-- Helper: the two branches of `_detect_and_adjust_reference_date` for a
dataset with at least one parsed date. -/
theorem detect_adjust_branches (now : ℤ) (data : SragData) (ref m : ℤ)
    (hne : data.rows.isEmpty = false) (hcol : data.cols.dtNotific = true)
    (hmax : (data.rows.filterMap fun r => coerceDate r.dtNotific).max? =
      some m) :
    (m < now - 1095 → detectAndAdjustReferenceDate now data ref = m) ∧
    (now - 1095 ≤ m → detectAndAdjustReferenceDate now data ref = ref) := by
  constructor
  · intro h
    simp only [detectAndAdjustReferenceDate, hne, hcol, hmax]
    simp [h]
  · intro h
    simp only [detectAndAdjustReferenceDate, hne, hcol, hmax]
    simp [not_lt.mpr h]

/-- Claim C2 (amended): the ~3-year re-anchor threshold is measured against
the current date (`datetime.now()`), not against the requested reference
date: when the dataset's maximum parsed DT_NOTIFIC is more than 1095 days
before now, the window end is re-anchored to that maximum, and otherwise —
even for a reference date decades away from the data — the caller's
reference date is returned verbatim. -/
theorem c2_reference_anchor_uses_now (now : ℤ) (data : SragData) (ref m : ℤ)
    (hne : data.rows.isEmpty = false) (hcol : data.cols.dtNotific = true)
    (hmax : (data.rows.filterMap fun r => coerceDate r.dtNotific).max? =
      some m) :
    (m < now - 1095 → detectAndAdjustReferenceDate now data ref = m) ∧
    (now - 1095 ≤ m → detectAndAdjustReferenceDate now data ref = ref) :=
  detect_adjust_branches now data ref m hne hcol hmax

/-- Claim C2 witness: with the current date 2028-01-01 the same dataset
(max 2024-06-01) IS re-anchored, and with the current date 2026-10-12 a
recent reference date is honored verbatim. -/
theorem c2_witness :
    detectAndAdjustReferenceDate (toD 2028 1 1) c2Data (toD 2099 12 31) =
      toD 2024 6 1 ∧
    detectAndAdjustReferenceDate (toD 2026 10 12) c2Data (toD 2025 1 1) =
      toD 2025 1 1 := by
  exact ⟨(c2_reference_anchor_uses_now (toD 2028 1 1) c2Data (toD 2099 12 31)
      (toD 2024 6 1) rfl rfl (by decide)).1 (by decide),
    (c2_reference_anchor_uses_now (toD 2026 10 12) c2Data (toD 2025 1 1)
      (toD 2024 6 1) rfl rfl (by decide)).2 (by decide)⟩

/-- Claim C6 (amended): no clamping of a future reference date to today
exists. Whenever the dataset's maximum parsed date is within 1095 days of
the current date, the reference date — including one strictly in the
future — is used verbatim as the window end of the case-trend metric. -/
theorem c6_no_future_clamp (now : ℤ) (data : SragData) (ref m N : ℤ)
    (hne : data.rows.isEmpty = false) (hcol : data.cols.dtNotific = true)
    (hmax : (data.rows.filterMap fun r => coerceDate r.dtNotific).max? =
      some m)
    (hrecent : now - 1095 ≤ m) (hfut : now < ref) :
    detectAndAdjustReferenceDate now data ref = ref ∧
    (∀ res dataP, calcCaseIncreaseRate now data ref N = .ok (res, dataP) →
      res.currentEnd = ref ∧ now < res.currentEnd) := by
  have hadj : detectAndAdjustReferenceDate now data ref = ref :=
    (detect_adjust_branches now data ref m hne hcol hmax).2 hrecent
  refine ⟨hadj, fun res dataP hok => ?_⟩
  unfold calcCaseIncreaseRate at hok
  rw [hne, hcol] at hok
  simp only [Bool.not_true, Bool.or_false, Bool.false_eq_true, if_false] at hok
  rw [hadj] at hok
  split at hok
  · exact absurd hok (by simp)
  · simp only [Except.ok.injEq, Prod.mk.injEq] at hok
    obtain ⟨hres, -⟩ := hok
    subst hres
    exact ⟨rfl, hfut⟩

/-- Claim C6 witness: the no-clamp theorem applied to the concrete recent
dataset with reference date 2099-12-31 and current date 2026-10-12. -/
theorem c6_witness :
    detectAndAdjustReferenceDate (toD 2026 10 12) c6Data (toD 2099 12 31) =
      toD 2099 12 31 := by
  exact (c6_no_future_clamp (toD 2026 10 12) c6Data (toD 2099 12 31)
    (toD 2026 6 1) 30 rfl rfl (by decide) (by decide) (by decide)).1

/-- Claim C5 (amended): both comparison windows are closed — current cases
are counted in [ref−N, ref] and previous cases in [ref−2N, ref−N], so the
windows share the boundary date ref−N and a record dated exactly there is
counted in both periods. The rate policy is as claimed: previous=0 and
current=0 gives rate 0 with the stable interpretation, previous=0 with
current>0 gives rate 100 with the new-cases interpretation, and otherwise
rate = (current−previous)/previous×100; division by zero never occurs. -/
theorem c5_windows_closed_and_edge_policy (now : ℤ) (data : SragData)
    (ref N : ℤ) (res : CaseIncreaseResult) (dataP : SragData)
    (hne : data.rows.isEmpty = false) (hcol : data.cols.dtNotific = true)
    (hok : calcCaseIncreaseRate now data ref N = .ok (res, dataP)) :
    res.currentCases = countWindow dataP.rows
      (detectAndAdjustReferenceDate now data ref - N)
      (detectAndAdjustReferenceDate now data ref) ∧
    res.previousCases = countWindow dataP.rows
      (detectAndAdjustReferenceDate now data ref - 2 * N)
      (detectAndAdjustReferenceDate now data ref - N) ∧
    res.previousEnd = res.currentStart ∧
    (res.previousCases = 0 → res.currentCases = 0 → res.rate = 0 ∧
      res.interpretation = "Sem casos em ambos os períodos") ∧
    (res.previousCases = 0 → 0 < res.currentCases → res.rate = 100 ∧
      res.interpretation = "Novos casos identificados") ∧
    (0 < res.previousCases → res.rate =
      (((res.currentCases : ℚ) - res.previousCases) / res.previousCases)
        * 100) := by
  unfold calcCaseIncreaseRate at hok
  rw [hne, hcol] at hok
  simp only [Bool.not_true, Bool.or_false, Bool.false_eq_true, if_false]
    at hok
  split at hok
  · exact absurd hok (by simp)
  · rename_i dataQ heq
    simp only [Except.ok.injEq, Prod.mk.injEq] at hok
    obtain ⟨hres, hdp⟩ := hok
    subst hres
    subst hdp
    refine ⟨rfl, ?_, rfl, fun hp hc => ?_, fun hp hc => ?_, fun hp => ?_⟩
    · have harith : detectAndAdjustReferenceDate now data ref - N - N =
        detectAndAdjustReferenceDate now data ref - 2 * N := by ring
      simp only [harith]
    · simp only at hp hc ⊢
      simp [hp, hc]
    · simp only at hp hc ⊢
      simp [hp, Nat.pos_iff_ne_zero.mp hc]
    · simp only at hp ⊢
      have hp' := Nat.pos_iff_ne_zero.mp hp
      simp only [hp', if_false, if_neg hp']
      split_ifs <;> rfl

/-- Claim C5 witness: the window theorem applied to the single-record
dataset dated 2024-04-01 with reference 2024-04-01 and N = 30: the previous
window is empty and the current window holds one case, so the edge policy
yields rate 100 with the new-cases interpretation. -/
theorem c5_witness :
    c5NewRes.rate = 100 ∧
    c5NewRes.interpretation = "Novos casos identificados" := by
  have hok : calcCaseIncreaseRate (toD 2024 4 1) c5NewData (toD 2024 4 1) 30 =
      .ok (c5NewRes, c5NewData) := rfl
  exact (c5_windows_closed_and_edge_policy (toD 2024 4 1) c5NewData
    (toD 2024 4 1) 30 c5NewRes c5NewData rfl rfl hok).2.2.2.2.1 rfl
    (by decide)
/-- Helper: a successful DT_NOTIFIC re-parse changes nothing but the
DT_NOTIFIC cells, and is the identity when they were already parsed. -/
theorem parseRows_shape (rows rows2 : List SragRow)
    (h : parseRows rows = .ok rows2) :
    rows2.map eraseDt = rows.map eraseDt ∧
    ((rows.all fun r => match r.dtNotific with
        | .str _ => false | _ => true) = true → rows2 = rows) := by
  induction rows generalizing rows2 with
  | nil =>
    simp only [parseRows, Except.ok.injEq] at h
    subst h
    exact ⟨rfl, fun _ => rfl⟩
  | cons r rs ih =>
    simp only [parseRows] at h
    cases hc : toDatetime r.dtNotific with
    | error e =>
      rw [hc] at h
      simp only [Bind.bind, Except.bind] at h
      exact absurd h (by simp)
    | ok c =>
      rw [hc] at h
      simp only [Bind.bind, Except.bind] at h
      cases hr : parseRows rs with
      | error e =>
        rw [hr] at h
        exact absurd h (by simp)
      | ok rest =>
        rw [hr] at h
        simp only [Except.ok.injEq] at h
        subst h
        obtain ⟨ihm, ihp⟩ := ih rest hr
        constructor
        · simp only [List.map_cons, ihm]
          rfl
        · intro hall
          simp only [List.all_cons, Bool.and_eq_true] at hall
          obtain ⟨hr1, hrs⟩ := hall
          rw [ihp hrs]
          cases hd : r.dtNotific with
          | str s => rw [hd] at hr1; simp at hr1
          | date d =>
            rw [hd] at hc
            simp only [toDatetime, Except.ok.injEq] at hc
            subst hc
            rw [← hd]
          | na =>
            rw [hd] at hc
            simp only [toDatetime, Except.ok.injEq] at hc
            subst hc
            rw [← hd]

/-- Helper: `parseDtColumn` preserves the column set and every non-date
field, and is the identity on an already-parsed dataset. -/
theorem parseDtColumn_shape (data dataP : SragData)
    (h : parseDtColumn data = .ok dataP) :
    dataP.cols = data.cols ∧
    dataP.rows.map eraseDt = data.rows.map eraseDt ∧
    (dtAlreadyParsed data = true → dataP = data) := by
  unfold parseDtColumn at h
  split at h
  · exact absurd h (by simp)
  · rename_i rows heq
    simp only [Except.ok.injEq] at h
    subst h
    obtain ⟨hm, hp⟩ := parseRows_shape data.rows rows heq
    exact ⟨rfl, hm, fun hparsed => by
      unfold dtAlreadyParsed at hparsed
      rw [hp hparsed]⟩

/-- Helper: a two-way branch whose arms succeed with the same dataset
pins down the returned dataset. -/
theorem ok_pair_snd2 {A B : Type} {c : Prop} [Decidable c]
    {a b : A} {d : B} {res : A} {dataP : B}
    (h : (if c then Except.ok (a, d) else Except.ok (b, d) :
      Except String (A × B)) = .ok (res, dataP)) :
    dataP = d := by
  split at h <;>
    · simp only [Except.ok.injEq, Prod.mk.injEq] at h
      exact h.2.symm

/-- Helper: the three-way variant of `ok_pair_snd2`. -/
theorem ok_pair_snd3 {A B : Type} {c1 c2 : Prop} [Decidable c1]
    [Decidable c2] {a b e : A} {d : B} {res : A} {dataP : B}
    (h : (if c1 then Except.ok (a, d)
      else if c2 then Except.ok (b, d) else Except.ok (e, d) :
      Except String (A × B)) = .ok (res, dataP)) :
    dataP = d := by
  split at h
  · simp only [Except.ok.injEq, Prod.mk.injEq] at h
    exact h.2.symm
  · exact ok_pair_snd2 h

/-- Claim C9 (amended): after any of the three modelled metrics returns
successfully, the caller's dataset is unchanged EXCEPT for its DT_NOTIFIC
column, which each metric reassigns in place with its datetime-parsed
version (metrics_tool.py lines 117, 213, 441); the column set and every
other field are untouched, and a dataset whose DT_NOTIFIC was already
parsed comes back value-identical. -/
theorem c9_metrics_mutate_only_dtnotific (now ref N : ℤ) (data : SragData) :
    (∀ res dataP, calcCaseIncreaseRate now data ref N = .ok (res, dataP) →
      dataP.cols = data.cols ∧
      dataP.rows.map eraseDt = data.rows.map eraseDt ∧
      (dtAlreadyParsed data = true → dataP = data)) ∧
    (∀ res dataP, calcMortalityRate now data ref N = .ok (res, dataP) →
      dataP.cols = data.cols ∧
      dataP.rows.map eraseDt = data.rows.map eraseDt ∧
      (dtAlreadyParsed data = true → dataP = data)) ∧
    (∀ res dataP, calcVaccinationRate now data ref N = .ok (res, dataP) →
      dataP.cols = data.cols ∧
      dataP.rows.map eraseDt = data.rows.map eraseDt ∧
      (dtAlreadyParsed data = true → dataP = data)) := by
  refine ⟨fun res dataP hok => ?_, fun res dataP hok => ?_,
    fun res dataP hok => ?_⟩
  · unfold calcCaseIncreaseRate at hok
    split at hok
    · simp only [Except.ok.injEq, Prod.mk.injEq] at hok
      obtain ⟨-, hdp⟩ := hok
      subst hdp
      exact ⟨rfl, rfl, fun _ => rfl⟩
    · split at hok
      · exact absurd hok (by simp)
      · rename_i dataQ heq
        simp only [Except.ok.injEq, Prod.mk.injEq] at hok
        obtain ⟨-, hdp⟩ := hok
        subst hdp
        exact parseDtColumn_shape data dataQ heq
  · unfold calcMortalityRate at hok
    split at hok
    · exact absurd hok (by simp)
    · split at hok
      · exact absurd hok (by simp)
      · rename_i dataQ heq
        have hdp := ok_pair_snd2 hok
        subst hdp
        exact parseDtColumn_shape data dataP heq
  · unfold calcVaccinationRate at hok
    split at hok
    · exact absurd hok (by simp)
    · split at hok
      · exact absurd hok (by simp)
      · rename_i dataQ heq
        have hdp := ok_pair_snd3 hok
        subst hdp
        exact parseDtColumn_shape data dataP heq

/-- Claim C9 witness: the mutation theorem applied to the already-parsed
dataset `c2Data` on the mortality metric (window far from the data, so the
run succeeds with the no-data result): the dataset comes back identical. -/
theorem c9_witness :
    c2Data.cols = c2Data.cols ∧
    c2Data.rows.map eraseDt = c2Data.rows.map eraseDt ∧
    (dtAlreadyParsed c2Data = true → c2Data = c2Data) := by
  exact (c9_metrics_mutate_only_dtnotific (toD 2020 1 1) (toD 2020 1 1) 90
    c2Data).2.1
    ⟨0, "Sem dados para o período analisado", 0, 0, toD 2020 1 1 - 90,
      toD 2020 1 1, false⟩
    c2Data rfl

/-- Claim C8: on a validation result with a non-empty completeness table, a
duplicate analysis and at least one record, the quality score is computed in
exactly the claimed order — 100, minus 10 per error, minus 2 per warning,
times (average per-field completeness / 100), minus up to 20 points scaled
by the key-duplicate ratio, clamped to [0, 100] (the code then rounds the
clamped value to two decimals). -/
theorem c8_quality_score_order (vr : ValidationAgg)
    (hc : vr.completeness ≠ []) (hd : vr.hasDupAnalysis = true)
    (ht : 0 < vr.totalRecords) :
    qualityScore vr = round2 (claimQualityScore vr) := by
  unfold qualityScore claimQualityScore
  rw [if_neg (by rintro ⟨-, h0⟩; omega)]
  simp only [hc, hd, ne_eq, not_false_eq_true, eq_self_iff_true, ite_true,
    if_true]
  congr 1
  congr 1
  congr 1
  ring

/-- Claim C8 witness: the score theorem at one error, two warnings,
completeness null-percentages 10 and 30, a duplicate analysis with 5
key duplicates over 100 records. -/
theorem c8_witness :
    qualityScore ⟨["e1"], ["w1", "w2"], [10, 30], true, 5, 100⟩ =
      round2 (claimQualityScore ⟨["e1"], ["w1", "w2"], [10, 30], true, 5,
        100⟩) := by
  exact c8_quality_score_order ⟨["e1"], ["w1", "w2"], [10, 30], true, 5, 100⟩
    (by simp) rfl (by norm_num)

/-- Claim C10: for every input, `_validate_completeness` ends in the caught
KeyError on the never-initialised `statistics` key and returns only one
error message (and no completeness data); consequently, for an aggregated
result whose completeness table stayed empty, the quality score's
multiplication by average completeness never takes effect — the score is
just the error/warning deductions, the duplicate deduction, clamp, and
rounding. -/
theorem c10_completeness_always_keyerror (colStats : List ColStat)
    (nRecords : ℕ) :
    validateCompleteness colStats nRecords = completenessErrorOut ∧
    (validateCompleteness colStats nRecords).completeness = none ∧
    (∀ vr : ValidationAgg, vr.completeness = [] → qualityScore vr =
      if vr.hasDupAnalysis ∧ vr.totalRecords = 0 then 0
      else round2 (max 0 (min 100
        (((100 : ℚ) - 10 * vr.errors.length - 2 * vr.warnings.length)
          - (if vr.hasDupAnalysis then
              ((vr.keyFieldDuplicates : ℚ) / vr.totalRecords) * 20
            else 0))))) := by
  refine ⟨rfl, rfl, fun vr hvc => ?_⟩
  unfold qualityScore
  by_cases h0 : vr.hasDupAnalysis ∧ vr.totalRecords = 0
  · rw [if_pos h0, if_pos h0]
  · rw [if_neg h0, if_neg h0]
    simp only [hvc, ne_eq, not_true_eq_false, ite_false, if_false,
      List.length_nil]
    cases hdup : vr.hasDupAnalysis
    · simp only [Bool.false_eq_true, ite_false, if_false, sub_zero]
    · simp only [ite_true, if_true]

/-- Claim C10 witness: the theorem applied to the empty input and to a
concrete aggregated result with one error and no completeness data. -/
theorem c10_witness :
    validateCompleteness [] 0 = completenessErrorOut ∧
    qualityScore ⟨["a"], [], [], true, 0, 5⟩ =
      if (⟨["a"], [], [], true, 0, 5⟩ : ValidationAgg).hasDupAnalysis ∧
          (⟨["a"], [], [], true, 0, 5⟩ : ValidationAgg).totalRecords = 0
        then 0
      else round2 (max 0 (min 100
        (((100 : ℚ) -
            10 * (⟨["a"], [], [], true, 0, 5⟩ : ValidationAgg).errors.length -
            2 * (⟨["a"], [], [], true, 0, 5⟩ :
              ValidationAgg).warnings.length)
          - (if (⟨["a"], [], [], true, 0, 5⟩ :
                ValidationAgg).hasDupAnalysis then
              (((⟨["a"], [], [], true, 0, 5⟩ :
                  ValidationAgg).keyFieldDuplicates : ℚ) /
                (⟨["a"], [], [], true, 0, 5⟩ :
                  ValidationAgg).totalRecords) * 20
            else 0)))) := by
  exact ⟨(c10_completeness_always_keyerror [] 0).1,
    (c10_completeness_always_keyerror [] 0).2.2
      ⟨["a"], [], [], true, 0, 5⟩ rfl⟩

end Srag
